import Mathlib

/-! # ngnfs-progs: the cluster map core

Sources embedded: shared/map.c, mapd/recv.c, shared/shutdown.c, shared/mount.c
and tests/mount_unmount.c.

A shallow embedding of the map code.  C objects become Lean values, pointers
that may hold NULL or an ERR_PTR become `Ptr`, and an execution that traps
(NULL dereference, division by zero, read past a buffer) ends in a `Fault`
instead of a return value.  Results of `kmalloc`/`malloc`, of the message
transport and of the address parser are inputs of the functions that call
them, and so is what other threads do to the fs info while a caller sleeps.
-/

namespace Ngnfs

/-! ## Constants -/

/-- errno value of ENOMEM. -/
def ENOMEM : Int := 12

/-- errno value of EINVAL. -/
def EINVAL : Int := 22

/-- Largest value of a u8 (shared/lk/limits.h). -/
def U8_MAX : Nat := 255

/-- Address family written by map_to_addr. -/
def AF_INET : Nat := 2

/-! ## Traps -/

/-- Ways an execution can end without returning to its caller. -/
inductive Fault where
  | null_deref
  | bad_pointer
  | div_by_zero
  | out_of_bounds
  deriving DecidableEq, Repr

/-- A C pointer value: NULL, an error pointer made by ERR_PTR, or the address
of a live object (represented by the object itself). -/
inductive Ptr (α : Type) where
  | null : Ptr α
  | err : Int → Ptr α
  | obj : α → Ptr α
  deriving DecidableEq, Repr

/-- ERR_PTR: the errno cast to a pointer. -/
def ERR_PTR {α : Type} (e : Int) : Ptr α := Ptr.err e

/-- PTR_ERR: the pointer cast back to a long. -/
def PTR_ERR {α : Type} : Ptr α → Int
  | Ptr.err e => e
  | _ => 0

/-- The test `p < 0` written on a pointer in map.c and recv.c.  Pointers
compare as unsigned addresses: ERR_PTR(e) sits at 2^64 + e, and no unsigned
address is below zero. -/
def ptr_lt_zero {α : Type} : Ptr α → Bool
  | Ptr.null => decide ((0 : Nat) < 0)
  | Ptr.err e => decide ((e % (2 ^ 64 : Int)).toNat < 0)
  | Ptr.obj _ => false

/-- Dereference for reading: NULL and error pointers trap. -/
def deref {α : Type} : Ptr α → Except Fault α
  | Ptr.null => Except.error Fault.null_deref
  | Ptr.err _ => Except.error Fault.bad_pointer
  | Ptr.obj a => Except.ok a

/-! ## Byte order (shared/lk/byteorder.h)

A field declared __le16, __le32 or __le64 is represented by the number its
bytes encode in little-endian order, which is the same on every host and is
what travels on the wire.  cpu_to_leN takes a host number to the field that
holds it and leN_to_cpu takes it back, so on this representation both keep
the number, cut to the width of the type, whatever the byte order of the
host.  The byte order of the host (`be`, true for big-endian) shows only
where a little-endian field is read as a native integer without conversion. -/

/-- Byte swap of a 32-bit value. -/
def bswap32 (x : Nat) : Nat :=
  (x % 256) * 16777216 + (x / 256 % 256) * 65536 + (x / 65536 % 256) * 256 + x / 16777216 % 256

/-- Byte swap of a 64-bit value. -/
def bswap64 (x : Nat) : Nat :=
  bswap32 (x % 4294967296) * 4294967296 + bswap32 (x / 4294967296 % 4294967296)

def cpu_to_le16 (x : Nat) : Nat := x % 65536
def le16_to_cpu (x : Nat) : Nat := x % 65536
def cpu_to_le32 (x : Nat) : Nat := x % 4294967296
def le32_to_cpu (x : Nat) : Nat := x % 4294967296
def cpu_to_le64 (x : Nat) : Nat := x % 18446744073709551616
def le64_to_cpu (x : Nat) : Nat := x % 18446744073709551616

/-- The native 64-bit integer a host reads from the bytes of a __le64 field
when it skips le64_to_cpu. -/
def raw_le64 (be : Bool) (x : Nat) : Nat :=
  if be then bswap64 (x % 18446744073709551616) else x % 18446744073709551616

/-! ## Data model -/

/-- The fields of struct sockaddr_in the map code touches. -/
structure sockaddr_in where
  sin_family : Nat
  sin_port : Nat
  s_addr : Nat
  deriving DecidableEq, Repr

/-- Range of the fields of a sockaddr_in: 16-bit family and port, 32-bit address. -/
def sockaddr_in.wf (a : sockaddr_in) : Prop :=
  a.sin_family < 65536 ∧ a.sin_port < 65536 ∧ a.s_addr < 4294967296

instance (a : sockaddr_in) : Decidable a.wf := by
  unfold sockaddr_in.wf; infer_instance

/-- Wire endpoint, struct ngnfs_ipv4_addr: __le32 addr, __le16 port. -/
structure ngnfs_ipv4_addr where
  addr : Nat
  port : Nat
  deriving DecidableEq, Repr

/-- Wire map, struct ngnfs_devd_map: a __le64 count followed by a flexible
array.  `addrs` lists the array elements that lie inside the buffer holding
the map. -/
structure ngnfs_devd_map where
  nr_addrs : Nat
  addrs : List ngnfs_ipv4_addr
  deriving DecidableEq, Repr

/-- The struct ngnfs_maps of map.c. -/
structure ngnfs_maps where
  devd_map : ngnfs_devd_map
  deriving DecidableEq, Repr

/-- The struct ngnfs_map_info of map.c: the published cell (NULL until the first
publication) and the number of wake_up calls made on updates_waitq. -/
structure ngnfs_map_info where
  maps_rcu : Option ngnfs_maps
  updates_woken : Nat
  deriving DecidableEq, Repr

/-- The fields of struct ngnfs_fs_info used by map.c and shutdown.c. -/
structure ngnfs_fs_info where
  map_info : Option ngnfs_map_info
  global_errno : Int
  shutdown : Bool
  deriving DecidableEq, Repr

/-- INIT_NGNFS_FS_INFO: every field zero. -/
def INIT_NGNFS_FS_INFO : ngnfs_fs_info :=
  { map_info := none, global_errno := 0, shutdown := false }

/-! ## map.c: lookup -/

/-- The addr_to_map of map.c. -/
def addr_to_map (src_addr : sockaddr_in) : ngnfs_ipv4_addr :=
  { addr := cpu_to_le32 src_addr.s_addr, port := cpu_to_le16 src_addr.sin_port }

/-- The map_to_addr of map.c. -/
def map_to_addr (src_addr : ngnfs_ipv4_addr) : sockaddr_in :=
  { sin_family := AF_INET, sin_port := le16_to_cpu src_addr.port,
    s_addr := le32_to_cpu src_addr.addr }

/-- Modelled from the spec: div_u64_rem of shared/lk/math64.h, which is not among
the sources; the spec calls it a 64-bit-by-64-bit division helper.  The
remainder is stored through a u32 pointer.  Division by zero traps. -/
def div_u64_rem (dividend divisor : Nat) : Except Fault (Nat × Nat) :=
  if divisor = 0 then Except.error Fault.div_by_zero
  else Except.ok (dividend / divisor, dividend % divisor % 4294967296)

/-- Read of a flexible-array element; an index outside the buffer traps. -/
def addrs_at (m : ngnfs_devd_map) (i : Nat) : Except Fault ngnfs_ipv4_addr :=
  match m.addrs.get? i with
  | some a => Except.ok a
  | none => Except.error Fault.out_of_bounds

/-- The ngnfs_map_map_block of map.c.  The result is the return value and the
endpoint stored through `addr` (none when nothing was stored). -/
def ngnfs_map_map_block (nfi : ngnfs_fs_info) (bnr : Nat) :
    Except Fault (Int × Option sockaddr_in) :=
  match nfi.map_info with
  | none => Except.error Fault.null_deref
  | some minf =>
    match minf.maps_rcu with
    | none => Except.error Fault.null_deref
    | some nm =>
      match div_u64_rem bnr (le64_to_cpu nm.devd_map.nr_addrs) with
      | Except.error f => Except.error f
      | Except.ok (_, rem) =>
        match addrs_at nm.devd_map rem with
        | Except.error f => Except.error f
        | Except.ok a => Except.ok (0, some (map_to_addr a))

/-! ## map.c: the address list -/

/-- The ngnfs_map_append_addr of map.c.  `parse` stands for parse_ipv4_addr_port
(shared/parse.c, not among the sources): its return value and the endpoint it
leaves in the entry.  `malloc_ok` is whether malloc returned memory.  The
result is the return value, the counter and the list after the call. -/
def ngnfs_map_append_addr (parse : String → Int × sockaddr_in) (malloc_ok : Bool)
    (nr_addrs : Nat) (addr_list : List sockaddr_in) (str : String) :
    Int × Nat × List sockaddr_in :=
  if nr_addrs = U8_MAX then (-EINVAL, nr_addrs, addr_list)
  else if malloc_ok = false then (-ENOMEM, nr_addrs, addr_list)
  else
    let ret := (parse str).1
    if ret < 0 then (ret, nr_addrs, addr_list)
    else (ret, (nr_addrs + 1) % 256, addr_list ++ [(parse str).2])

/-- Body of the list_for_each_entry_safe loop of ngnfs_map_free_addrs: the
entries still to visit and the list; each visited entry is unlinked
(list_del_init) and freed.  The visited entry is the first one still linked,
which is the one `erase` removes. -/
def free_addrs_loop : List sockaddr_in → List sockaddr_in → List sockaddr_in
  | [], addr_list => addr_list
  | ahead :: rest, addr_list => free_addrs_loop rest (addr_list.erase ahead)

/-- The ngnfs_map_free_addrs of map.c: the list after the call. -/
def ngnfs_map_free_addrs (addr_list : List sockaddr_in) : List sockaddr_in :=
  free_addrs_loop addr_list addr_list

/-- Calls of ngnfs_map_append_addr one after the other on the same counter and
list, each with its malloc outcome and text; collects the return values. -/
def append_seq (parse : String → Int × sockaddr_in) :
    List (Bool × String) → Nat × List sockaddr_in → List Int × Nat × List sockaddr_in
  | [], st => ([], st.1, st.2)
  | c :: rest, st =>
    let r := ngnfs_map_append_addr parse c.1 st.1 st.2 c.2
    let t := append_seq parse rest (r.2.1, r.2.2)
    (r.1 :: t.1, t.2.1, t.2.2)

/-! ## map.c: messages and publication -/

/-- Sizes fixed by shared/format-msg.h, which is not among the sources: the
offset of devd_map.addrs in struct ngnfs_msg_get_maps_result and the size of
one struct ngnfs_ipv4_addr.  An error field and a count come before the
array, so the offset is positive. -/
structure Layout where
  addrs_off : Nat
  addr_size : Nat
  addrs_off_pos : 0 < addrs_off
  addr_size_pos : 0 < addr_size

/-- The struct ngnfs_msg_get_maps_result: an error and a wire map. -/
structure ngnfs_msg_get_maps_result where
  err : Int
  devd_map : ngnfs_devd_map
  deriving DecidableEq, Repr

/-- The struct ngnfs_msg_get_maps. -/
structure ngnfs_msg_get_maps where
  map_id : Nat
  deriving DecidableEq, Repr

/-- Message types used by the map code. -/
inductive msg_type where
  | NGNFS_MSG_GET_MAPS
  | NGNFS_MSG_GET_MAPS_RESULT
  deriving DecidableEq, Repr

/-- The struct ngnfs_msg_desc, with the control buffer typed by its message. -/
structure ngnfs_msg_desc (β : Type) where
  type : msg_type
  addr : sockaddr_in
  ctl_buf : β
  ctl_size : Nat
  data_page : Option Nat
  data_size : Nat

/-- The get_maps_result_size of map.c. -/
def get_maps_result_size (L : Layout) (maps : ngnfs_maps) : Nat :=
  let nr := le64_to_cpu maps.devd_map.nr_addrs % 256
  L.addrs_off + nr * L.addr_size

/-- The copy_maps of map.c: the bytes memcpy stores at dst, namely the count
field and the first `nr` array elements of src, where `nr` is the count cut
to a u8.  Both callers pass a dst allocated for exactly `nr` elements.
Reading past the buffer that holds src traps. -/
def copy_maps (src : ngnfs_maps) : Except Fault ngnfs_maps :=
  let nr := le64_to_cpu src.devd_map.nr_addrs % 256
  if src.devd_map.addrs.length < nr then Except.error Fault.out_of_bounds
  else Except.ok { devd_map := { nr_addrs := src.devd_map.nr_addrs,
                                  addrs := src.devd_map.addrs.take nr } }

/-- The msg_to_maps of map.c: a pointer to the devd_map inside the message. -/
def msg_to_maps (gmr : ngnfs_msg_get_maps_result) : Ptr ngnfs_maps :=
  Ptr.obj { devd_map := gmr.devd_map }

/-- The for loop of ngnfs_maps_to_msg.  `kmalloc i` is the outcome of the i-th
kmalloc: none for NULL, otherwise the value the fresh buffer happens to hold
in its err field (kmalloc does not clear memory).  The state is the iteration
number, `alloced`, and `msg` (none for NULL, else the err field of the
buffer).  The result is none when the loop is cut off by `fuel`. -/
def maps_to_msg_loop (L : Layout) (nfi : ngnfs_fs_info) (kmalloc : Nat → Option Int) :
    Nat → Nat → Nat → Option Int → Option (Except Fault (Ptr ngnfs_msg_get_maps_result))
  | 0, _, _, _ => none
  | fuel + 1, i, alloced, msg =>
    match nfi.map_info with
    | none => some (Except.error Fault.null_deref)
    | some minf =>
      match minf.maps_rcu with
      | none => some (Except.error Fault.null_deref)
      | some maps =>
        let sz := get_maps_result_size L maps
        if alloced = sz then
          match msg with
          | none => some (Except.error Fault.null_deref)
          | some g =>
            match copy_maps maps with
            | Except.error f => some (Except.error f)
            | Except.ok m => some (Except.ok (Ptr.obj { err := g, devd_map := m.devd_map }))
        else
          match kmalloc i with
          | none => some (Except.ok (ERR_PTR (-ENOMEM)))
          | some g => maps_to_msg_loop L nfi kmalloc fuel (i + 1) sz (some g)

/-- The ngnfs_maps_to_msg of map.c. -/
def ngnfs_maps_to_msg (L : Layout) (kmalloc : Nat → Option Int) (fuel : Nat)
    (nfi : ngnfs_fs_info) : Option (Except Fault (Ptr ngnfs_msg_get_maps_result)) :=
  maps_to_msg_loop L nfi kmalloc fuel 0 0 none

/-- The update_maps of map.c.  `kmalloc_ok` is whether kmalloc returned memory.
Without concurrent writers the cmpxchg loop succeeds on its first pass.  The
result is the return value and the fs info afterwards. -/
def update_maps (kmalloc_ok : Bool) (nfi : ngnfs_fs_info) (new_maps : Ptr ngnfs_maps) :
    Except Fault (Int × ngnfs_fs_info) :=
  match deref new_maps with
  | Except.error f => Except.error f
  | Except.ok src =>
    if kmalloc_ok = false then Except.ok (-ENOMEM, nfi)
    else
      match copy_maps src with
      | Except.error f => Except.error f
      | Except.ok new_rmaps =>
        match nfi.map_info with
        | none => Except.error Fault.null_deref
        | some minf =>
          let minf1 : ngnfs_map_info :=
            { maps_rcu := some new_rmaps, updates_woken := minf.updates_woken + 1 }
          let nfi1 : ngnfs_fs_info := { nfi with map_info := some minf1 }
          Except.ok (0, nfi1)

/-- The list_for_each_entry loop of addr_list_to_maps: the entries still to
visit, the u8 `nr`, and the array elements written so far.  An error is the
value of `ret` at the jump to out. -/
def addr_list_loop :
    List sockaddr_in → Nat → List ngnfs_ipv4_addr → Except Int (Nat × List ngnfs_ipv4_addr)
  | [], nr, written => Except.ok (nr, written)
  | ahead :: rest, nr, written =>
    if nr = 0 then Except.error (-EINVAL)
    else addr_list_loop rest (nr - 1) (written ++ [addr_to_map ahead])

/-- The addr_list_to_maps of map.c.  `nr` is a u8 parameter. -/
def addr_list_to_maps (kmalloc_ok : Bool) (list : List sockaddr_in) (nr : Nat) :
    Ptr ngnfs_maps :=
  let nr := nr % 256
  if nr = 0 then ERR_PTR (-EINVAL)
  else if kmalloc_ok = false then ERR_PTR (-ENOMEM)
  else
    match addr_list_loop list nr [] with
    | Except.error ret => ERR_PTR ret
    | Except.ok (left, written) =>
      if left ≠ 0 then ERR_PTR (-EINVAL)
      else Ptr.obj { devd_map := { nr_addrs := cpu_to_le64 nr, addrs := written } }

/-- The ngnfs_map_addrs_to_maps of map.c.  `kmalloc_ok1` is the allocation in
addr_list_to_maps, `kmalloc_ok2` the one in update_maps. -/
def ngnfs_map_addrs_to_maps (kmalloc_ok1 kmalloc_ok2 : Bool) (nfi : ngnfs_fs_info)
    (list : List sockaddr_in) (nr : Nat) : Except Fault (Int × ngnfs_fs_info) :=
  let nr := nr % 256
  if nr = 0 then Except.ok (-EINVAL, nfi)
  else
    let maps := addr_list_to_maps kmalloc_ok1 list nr
    if ptr_lt_zero maps then Except.ok (PTR_ERR maps, nfi)
    else update_maps kmalloc_ok2 nfi maps

/-- The ngnfs_map_destroy of map.c. -/
def ngnfs_map_destroy (nfi : ngnfs_fs_info) : ngnfs_fs_info :=
  match nfi.map_info with
  | none => nfi
  | some _ => { nfi with map_info := none }

/-- The ngnfs_map_setup of map.c.  `kzalloc_ok` is whether kzalloc returned
(zeroed) memory. -/
def ngnfs_map_setup (kzalloc_ok : Bool) (nfi : ngnfs_fs_info) : Int × ngnfs_fs_info :=
  if kzalloc_ok = false then (-ENOMEM, ngnfs_map_destroy nfi)
  else
    let minf : ngnfs_map_info := { maps_rcu := none, updates_woken := 0 }
    let nfi1 : ngnfs_fs_info := { nfi with map_info := some minf }
    (0, nfi1)

/-- The map_get_maps_result of map.c.  `msg_err` stands for ngnfs_msg_err
(shared/msg.c, not among the sources). -/
def map_get_maps_result (msg_err : Int → Int) (kmalloc_ok : Bool) (nfi : ngnfs_fs_info)
    (mdesc : ngnfs_msg_desc ngnfs_msg_get_maps_result) : Except Fault (Int × ngnfs_fs_info) :=
  let gmr := mdesc.ctl_buf
  if gmr.err < 0 then Except.ok (msg_err gmr.err, nfi)
  else update_maps kmalloc_ok nfi (msg_to_maps gmr)

/-! ## mapd/recv.c -/

/-- The msg_size of recv.c: the count field is read as a native integer,
without le64_to_cpu, and cut to a u8. -/
def msg_size (L : Layout) (be : Bool) (gmr : ngnfs_msg_get_maps_result) : Nat :=
  let nr := raw_le64 be gmr.devd_map.nr_addrs % 256
  L.addrs_off + nr * L.addr_size

/-- The map_get_maps of recv.c.  `send` stands for ngnfs_msg_send (the transport,
not among the sources).  The result is the return value and the descriptor
handed to ngnfs_msg_send. -/
def map_get_maps (L : Layout) (be : Bool) (kmalloc : Nat → Option Int)
    (send : ngnfs_msg_desc ngnfs_msg_get_maps_result → Int) (fuel : Nat) (nfi : ngnfs_fs_info)
    (mdesc : ngnfs_msg_desc ngnfs_msg_get_maps) :
    Option (Except Fault (Int × ngnfs_msg_desc ngnfs_msg_get_maps_result)) :=
  let res : ngnfs_msg_get_maps_result := { err := 0, devd_map := { nr_addrs := 0, addrs := [] } }
  match ngnfs_maps_to_msg L kmalloc fuel nfi with
  | none => none
  | some (Except.error f) => some (Except.error f)
  | some (Except.ok resp0) =>
    let resp : Ptr ngnfs_msg_get_maps_result := if ptr_lt_zero resp0 then Ptr.obj res else resp0
    match deref resp with
    | Except.error f => some (Except.error f)
    | Except.ok gmr =>
      let res_mdesc : ngnfs_msg_desc ngnfs_msg_get_maps_result :=
        { type := msg_type.NGNFS_MSG_GET_MAPS_RESULT, addr := mdesc.addr, ctl_buf := gmr,
          ctl_size := msg_size L be gmr, data_page := none, data_size := 0 }
      some (Except.ok (send res_mdesc, res_mdesc))

/-! ## shutdown.c -/

/-- The ngnfs_shutdown of shutdown.c.  The calls that follow the two stores
(ngnfs_map_client_shutdown, ngnfs_block_shutdown, thread_shutdown_all) wake
waiters and signal threads; they are not among the sources and are taken to
leave both fields alone. -/
def ngnfs_shutdown (nfi : ngnfs_fs_info) (err : Int) : ngnfs_fs_info :=
  { nfi with global_errno := if err ≠ 0 then err else nfi.global_errno, shutdown := true }

/-- The ngnfs_should_shutdown of shutdown.c. -/
def ngnfs_should_shutdown (nfi : ngnfs_fs_info) : Bool := nfi.shutdown

/-- Calls ngnfs_shutdown(nfi, e) for each e of the list, in order. -/
def shutdown_seq (nfi : ngnfs_fs_info) (errs : List Int) : ngnfs_fs_info :=
  errs.foldl ngnfs_shutdown nfi

/-! ## recv.c: server setup -/

/-- The mapd_setup of recv.c.  `register_ret` stands for the return value of
ngnfs_msg_register_recv (the transport, not among the sources); mapd_destroy
only unregisters the handler. -/
def mapd_setup (kmalloc_ok1 kmalloc_ok2 : Bool) (register_ret : Int) (nfi : ngnfs_fs_info)
    (list : List sockaddr_in) (nr : Nat) : Except Fault (Int × ngnfs_fs_info) :=
  match ngnfs_map_addrs_to_maps kmalloc_ok1 kmalloc_ok2 nfi list nr with
  | Except.error f => Except.error f
  | Except.ok r => if r.1 < 0 then Except.ok (r.1, r.2) else Except.ok (register_ret, r.2)

/-! ## map.c: the client request -/

/-- The condition of the wait_event in ngnfs_maps_request, `minf->maps_rcu != NULL`,
evaluated on a state of the fs info. -/
def maps_request_wait_cond (nfi : ngnfs_fs_info) : Except Fault Bool :=
  match nfi.map_info with
  | none => Except.error Fault.null_deref
  | some minf => Except.ok minf.maps_rcu.isSome

/-- What another thread does to the fs info while a caller sleeps in wait_event:
the transport thread hands a received GET_MAPS_RESULT to map_get_maps_result
(with the outcome of the kmalloc in update_maps), or some thread calls
ngnfs_shutdown with an error. -/
inductive other_thread where
  | deliver (mdesc : ngnfs_msg_desc ngnfs_msg_get_maps_result) (kmalloc_ok : Bool)
  | shutdown (err : Int)

/-- Runs the actions of other threads in order on the fs info.  The value
map_get_maps_result returns goes to the transport and is dropped here. -/
def run_others (msg_err : Int → Int) :
    List other_thread → ngnfs_fs_info → Except Fault ngnfs_fs_info
  | [], nfi => Except.ok nfi
  | other_thread.deliver mdesc kmalloc_ok :: rest, nfi =>
    match map_get_maps_result msg_err kmalloc_ok nfi mdesc with
    | Except.error f => Except.error f
    | Except.ok r => run_others msg_err rest r.2
  | other_thread.shutdown err :: rest, nfi => run_others msg_err rest (ngnfs_shutdown nfi err)

/-- The ngnfs_maps_request of map.c.  `send` stands for ngnfs_msg_send.  `others`
are the actions other threads take after the request is sent and before the
sleeper looks at its condition again; wait_event returns only when the
condition holds, so the result is none for the return value while the caller
is still asleep.  The fs info is returned as the other threads left it. -/
def ngnfs_maps_request (msg_err : Int → Int) (send : ngnfs_msg_desc ngnfs_msg_get_maps → Int)
    (others : List other_thread) (nfi : ngnfs_fs_info) (addr : sockaddr_in) :
    Except Fault (Option Int × ngnfs_fs_info) :=
  let gm : ngnfs_msg_get_maps := { map_id := 0 }
  let mdesc : ngnfs_msg_desc ngnfs_msg_get_maps :=
    { type := msg_type.NGNFS_MSG_GET_MAPS, addr := addr, ctl_buf := gm, ctl_size := 8,
      data_page := none, data_size := 0 }
  let ret := send mdesc
  if ret < 0 then Except.ok (some ret, nfi)
  else
    match run_others msg_err others nfi with
    | Except.error f => Except.error f
    | Except.ok nfi1 =>
      match maps_request_wait_cond nfi1 with
      | Except.error f => Except.error f
      | Except.ok true => Except.ok (some ret, nfi1)
      | Except.ok false => Except.ok (none, nfi1)

/-- The ngnfs_map_client_setup of map.c.  `register_ret` stands for the return
value of ngnfs_msg_register_recv; ngnfs_map_client_destroy only unregisters
the handler. -/
def ngnfs_map_client_setup (msg_err : Int → Int) (register_ret : Int)
    (send : ngnfs_msg_desc ngnfs_msg_get_maps → Int) (others : List other_thread)
    (nfi : ngnfs_fs_info) (mapd_server_addr : sockaddr_in) :
    Except Fault (Option Int × ngnfs_fs_info) :=
  if register_ret < 0 then Except.ok (some register_ret, nfi)
  else ngnfs_maps_request msg_err send others nfi mapd_server_addr

/-! ## mount.c and tests/mount_unmount.c -/

/-- The ngnfs_unmount of mount.c.  ngnfs_map_client_destroy, ngnfs_block_destroy
and ngnfs_msg_destroy unregister and free transport and block state; they are
taken to leave the fields of the fs info modelled here alone. -/
def ngnfs_unmount (nfi : ngnfs_fs_info) : ngnfs_fs_info :=
  ngnfs_map_destroy (ngnfs_shutdown nfi 0)

/-- What ngnfs_mount gets from the functions it calls that are not among the
sources (getopt_long_more with the parsed server address, trace_setup,
ngnfs_msg_setup, ngnfs_block_setup, ngnfs_msg_register_recv, ngnfs_msg_send,
ngnfs_msg_err, ngnfs_map_request_maps), the outcome of the kzalloc in
ngnfs_map_setup, and what other threads do while the client setup sleeps. -/
structure mount_env where
  getopt_ret : Int
  mapd_server_addr : sockaddr_in
  trace_ret : Int
  kzalloc_ok : Bool
  msg_setup_ret : Int
  block_setup_ret : Int
  register_ret : Int
  send : ngnfs_msg_desc ngnfs_msg_get_maps → Int
  msg_err : Int → Int
  others : List other_thread
  request_maps_ret : Int

/-- The code at the label `out` of ngnfs_mount: unmount on a negative `ret`,
then return it. -/
def mount_out (ret : Int) (nfi : ngnfs_fs_info) : Option Int × ngnfs_fs_info :=
  (some ret, if ret < 0 then ngnfs_unmount nfi else nfi)

/-- The ngnfs_mount of mount.c.  The chain of `?:` stops at the first call that
returns a non-zero value.  The return value is none while the client setup
is asleep. -/
def ngnfs_mount (env : mount_env) (nfi : ngnfs_fs_info) :
    Except Fault (Option Int × ngnfs_fs_info) :=
  if env.getopt_ret < 0 then Except.ok (mount_out env.getopt_ret nfi)
  else if env.trace_ret ≠ 0 then Except.ok (mount_out env.trace_ret nfi)
  else
    let r := ngnfs_map_setup env.kzalloc_ok nfi
    if r.1 ≠ 0 then Except.ok (mount_out r.1 r.2)
    else if env.msg_setup_ret ≠ 0 then Except.ok (mount_out env.msg_setup_ret r.2)
    else if env.block_setup_ret ≠ 0 then Except.ok (mount_out env.block_setup_ret r.2)
    else
      match ngnfs_map_client_setup env.msg_err env.register_ret env.send env.others r.2
          env.mapd_server_addr with
      | Except.error f => Except.error f
      | Except.ok (none, nfi1) => Except.ok (none, nfi1)
      | Except.ok (some c, nfi1) =>
        if c ≠ 0 then Except.ok (mount_out c nfi1)
        else Except.ok (mount_out env.request_maps_ret nfi1)

/-- The statements of mount_unmount_thread after ngnfs_mount has returned `ret`
and left the fs info `nfi`: the status stored in margs->ret and the fs info
after the final ngnfs_shutdown. -/
def mount_unmount_report (ret : Int) (nfi : ngnfs_fs_info) : Int × ngnfs_fs_info :=
  let nfi1 := if ret < 0 then nfi else ngnfs_unmount nfi
  let status := if ret ≠ 0 then ret else nfi1.global_errno
  (status, ngnfs_shutdown nfi1 status)

/-- The mount_unmount_thread of tests/mount_unmount.c: none while ngnfs_mount has
not returned, else the reported status and the fs info at the end. -/
def mount_unmount_thread (env : mount_env) : Except Fault (Option (Int × ngnfs_fs_info)) :=
  match ngnfs_mount env INIT_NGNFS_FS_INFO with
  | Except.error f => Except.error f
  | Except.ok (none, _) => Except.ok none
  | Except.ok (some ret, nfi) => Except.ok (some (mount_unmount_report ret nfi))

/-! ## Scenario S1 of the spec: three hosts -/

/-- Endpoint of host `i` of the scenarios (10.0.0.i, port 5000), the fields as a
little-endian host holds them in network byte order. -/
def s1_host (i : Nat) : sockaddr_in :=
  { sin_family := AF_INET, sin_port := 34835, s_addr := i * 16777216 + 10 }

/-- A parser outcome for the texts of the scenarios: the three host texts parse,
anything else is rejected. -/
def s1_parse (str : String) : Int × sockaddr_in :=
  if str = "10.0.0.1:5000" then (0, s1_host 1)
  else if str = "10.0.0.2:5000" then (0, s1_host 2)
  else if str = "10.0.0.3:5000" then (0, s1_host 3)
  else (-EINVAL, { sin_family := 0, sin_port := 0, s_addr := 0 })

/-- The texts appended in scenario S1. -/
def s1_texts : List String := ["10.0.0.1:5000", "10.0.0.2:5000", "10.0.0.3:5000"]

/-- The fs info of scenario S1: map store set up, the
three texts appended, the list assembled and published. -/
def s1_published : Except Fault (Int × ngnfs_fs_info) :=
  let built := append_seq s1_parse (s1_texts.map (fun t => (true, t))) (0, [])
  ngnfs_map_addrs_to_maps true true (ngnfs_map_setup true INIT_NGNFS_FS_INFO).2
    built.2.2 built.2.1

/-- The lookup of scenario S1 for block `b`. -/
def s1_lookup (b : Nat) : Except Fault (Int × Option sockaddr_in) :=
  match s1_published with
  | Except.error f => Except.error f
  | Except.ok r => ngnfs_map_map_block r.2 b

/-- An fs info whose map store has `m` published (one publication so far). -/
def nfi_with_map (m : ngnfs_maps) : ngnfs_fs_info :=
  ⟨some ⟨some m, 1⟩, 0, false⟩

/-- A wire map made of a stored count and the array elements in its buffer. -/
def maps_of (nr_addrs : Nat) (addrs : List ngnfs_ipv4_addr) : ngnfs_maps :=
  ⟨⟨nr_addrs, addrs⟩⟩

/-! ## Scenario S2 of the spec: round trip -/

/-- Modelled from the spec: the layout of shared/format-msg.h, which is not among
the sources, for the packed wire form the spec gives, an i32 err, a u64
nr_addrs, then endpoints of a u32 addr and a u16 port: the array starts at
byte 12 and an endpoint takes 6 bytes. -/
def wire_layout : Layout := ⟨12, 6, by decide, by decide⟩

/-- The GET_MAPS request of scenario S2, sent from host 9 with map_id 0. -/
def s2_request : ngnfs_msg_desc ngnfs_msg_get_maps :=
  ⟨msg_type.NGNFS_MSG_GET_MAPS, s1_host 9, ⟨0⟩, 8, none, 0⟩

/-- Scenario S2: the server of S1, a little-endian host, answers the request
through map_get_maps (the buffer it allocates holds 0 in its err field and
the transport accepts the message), a freshly set up client runs
map_get_maps_result on what was sent and then looks up block `b`. -/
def s2_lookup (b : Nat) : Option (Except Fault (Int × Option sockaddr_in)) :=
  match s1_published with
  | Except.error f => some (Except.error f)
  | Except.ok server =>
    match map_get_maps wire_layout false (fun _ => some 0) (fun _ => 0) 2 server.2 s2_request with
    | none => none
    | some (Except.error f) => some (Except.error f)
    | some (Except.ok sent) =>
      match map_get_maps_result (fun e => e) true
          (ngnfs_map_setup true INIT_NGNFS_FS_INFO).2 sent.2 with
      | Except.error f => some (Except.error f)
      | Except.ok client => some (ngnfs_map_map_block client.2 b)

/-- The reply of scenario S2 when the buffer kmalloc returns to ngnfs_maps_to_msg
holds `g` in its err field: what map_get_maps on the server of S1 returns and
hands to the transport. -/
def s2_reply (g : Int) :
    Option (Except Fault (Int × ngnfs_msg_desc ngnfs_msg_get_maps_result)) :=
  match s1_published with
  | Except.error f => some (Except.error f)
  | Except.ok server =>
    map_get_maps wire_layout false (fun _ => some g) (fun _ => 0) 2 server.2 s2_request

/-- The client of scenario S2 after its handler ran on the reply: the return
value of map_get_maps_result and the client fs info. -/
def s2_client (g : Int) : Option (Except Fault (Int × ngnfs_fs_info)) :=
  match s2_reply g with
  | none => none
  | some (Except.error f) => some (Except.error f)
  | some (Except.ok sent) =>
    some (map_get_maps_result (fun e => e) true (ngnfs_map_setup true INIT_NGNFS_FS_INFO).2 sent.2)

/-- The client lookup of block `b` at the end of scenario S2, for a reply buffer
that held `g` in its err field. -/
def s2_lookup_with (g : Int) (b : Nat) : Option (Except Fault (Int × Option sockaddr_in)) :=
  match s2_client g with
  | none => none
  | some (Except.error f) => some (Except.error f)
  | some (Except.ok client) => some (ngnfs_map_map_block client.2 b)

/-- The first non-zero entry of a list of error codes, 0 when there is none:
the value the spec gives for global_errno after the calls. -/
def first_nonzero (errs : List Int) : Int :=
  (errs.find? (fun e => e ≠ 0)).getD 0

/-- The last non-zero entry of a list of error codes, `init` when there is none. -/
def last_nonzero (init : Int) (errs : List Int) : Int :=
  (errs.reverse.find? (fun e => e ≠ 0)).getD init

/-! ## Fixtures for the handler and mount scenarios -/

/-- A GET_MAPS_RESULT descriptor as the transport hands it to the client: sent
by host 1, with the given err and count fields, the endpoints that lie in
the control buffer, and the size of that buffer. -/
def result_msg (err : Int) (nr_addrs : Nat) (addrs : List ngnfs_ipv4_addr) (ctl_size : Nat) :
    ngnfs_msg_desc ngnfs_msg_get_maps_result :=
  ⟨msg_type.NGNFS_MSG_GET_MAPS_RESULT, s1_host 1, ⟨err, ⟨nr_addrs, addrs⟩⟩, ctl_size, none, 0⟩

/-- An fs info right after ngnfs_map_setup: the map store exists, the cell is
empty. -/
def fresh_store : ngnfs_fs_info := (ngnfs_map_setup true INIT_NGNFS_FS_INFO).2

/-- A mount environment in which option parsing, tracing, the transport and the
handler registration succeed, the request is sent, allocations succeed and
ngnfs_msg_err keeps the code; what is left open is what the other threads
do, and what ngnfs_block_setup and ngnfs_map_request_maps return. -/
def mount_env_of (others : List other_thread) (block_setup_ret request_maps_ret : Int) :
    mount_env :=
  { getopt_ret := 0, mapd_server_addr := s1_host 1, trace_ret := 0, kzalloc_ok := true,
    msg_setup_ret := 0, block_setup_ret := block_setup_ret, register_ret := 0,
    send := fun _ => 0, msg_err := fun e => e, others := others,
    request_maps_ret := request_maps_ret }

/-! # Theorems -/

/-! ## Byte order -/

theorem le16_roundtrip (x : Nat) (h : x < 65536) : le16_to_cpu (cpu_to_le16 x) = x := by
  unfold le16_to_cpu cpu_to_le16; omega

theorem le32_roundtrip (x : Nat) (h : x < 4294967296) : le32_to_cpu (cpu_to_le32 x) = x := by
  unfold le32_to_cpu cpu_to_le32; omega

theorem le64_roundtrip (x : Nat) (h : x < 18446744073709551616) :
    le64_to_cpu (cpu_to_le64 x) = x := by
  unfold le64_to_cpu cpu_to_le64; omega

theorem map_to_addr_addr_to_map (a : sockaddr_in) (h : a.wf) :
    map_to_addr (addr_to_map a) =
      { sin_family := AF_INET, sin_port := a.sin_port, s_addr := a.s_addr } := by
  obtain ⟨_, hp, ha⟩ := h
  simp [map_to_addr, addr_to_map, le16_roundtrip _ hp, le32_roundtrip _ ha]

/-! ## Lookup -/

theorem map_block_of_cell (nfi : ngnfs_fs_info) (minf : ngnfs_map_info)
    (nm : ngnfs_maps) (n bnr : Nat)
    (hinfo : nfi.map_info = some minf) (hcell : minf.maps_rcu = some nm)
    (hn : le64_to_cpu nm.devd_map.nr_addrs = n) (hlen : nm.devd_map.addrs.length = n)
    (h1 : 1 ≤ n) (h255 : n ≤ 255) :
    ∃ a, nm.devd_map.addrs.get? (bnr % n) = some a ∧
      ngnfs_map_map_block nfi bnr = Except.ok (0, some (map_to_addr a)) := by
  have hlt : bnr % n < n := Nat.mod_lt _ (by omega)
  have hidx : bnr % n < nm.devd_map.addrs.length := by omega
  refine ⟨nm.devd_map.addrs.get ⟨bnr % n, hidx⟩, List.get?_eq_get hidx, ?_⟩
  have hsmall : bnr % n % 4294967296 = bnr % n := Nat.mod_eq_of_lt (by omega)
  have hn0 : n ≠ 0 := by omega
  simp [ngnfs_map_map_block, hinfo, hcell, hn, div_u64_rem, hn0, hsmall, addrs_at,
    List.getElem?_eq_getElem hidx]

/-- C1: for every fs info whose published map holds n addresses with
1 <= n <= 255 (the count field decodes to n and the array has n elements) and
every block number bnr, ngnfs_map_map_block returns 0 and stores the endpoint
that map_to_addr decodes from the array element at index bnr mod n. -/
theorem map_block_returns_addr_at_bnr_mod_n (nfi : ngnfs_fs_info)
    (minf : ngnfs_map_info) (nm : ngnfs_maps) (n bnr : Nat)
    (hinfo : nfi.map_info = some minf) (hcell : minf.maps_rcu = some nm)
    (hn : le64_to_cpu nm.devd_map.nr_addrs = n) (hlen : nm.devd_map.addrs.length = n)
    (h1 : 1 ≤ n) (h255 : n ≤ 255) :
    ∃ a, nm.devd_map.addrs.get? (bnr % n) = some a ∧
      ngnfs_map_map_block nfi bnr = Except.ok (0, some (map_to_addr a)) := by
  have hidx : bnr % n < nm.devd_map.addrs.length := by
    rw [hlen]; exact Nat.mod_lt _ (by omega)
  have hrem : bnr % n % 4294967296 = bnr % n :=
    Nat.mod_eq_of_lt (Nat.lt_of_lt_of_le (Nat.mod_lt _ (by omega)) (by omega))
  refine ⟨nm.devd_map.addrs.get ⟨bnr % n, hidx⟩, List.get?_eq_get hidx, ?_⟩
  have hn0 : n ≠ 0 := Nat.pos_iff_ne_zero.mp h1
  simp [ngnfs_map_map_block, hinfo, hcell, hn, div_u64_rem, hn0, hrem, addrs_at,
    List.getElem?_eq_getElem hidx]

/-- C1 at a map of two addresses and block 5: index 1 is returned. -/
theorem map_block_returns_addr_at_bnr_mod_n_witness :
    ∃ a, (maps_of 2 [⟨7, 1⟩, ⟨9, 2⟩]).devd_map.addrs.get? (5 % 2) = some a ∧
      ngnfs_map_map_block (nfi_with_map (maps_of 2 [⟨7, 1⟩, ⟨9, 2⟩])) 5
        = Except.ok (0, some (map_to_addr a)) :=
  map_block_returns_addr_at_bnr_mod_n (nfi_with_map (maps_of 2 [⟨7, 1⟩, ⟨9, 2⟩]))
    ⟨some (maps_of 2 [⟨7, 1⟩, ⟨9, 2⟩]), 1⟩ (maps_of 2 [⟨7, 1⟩, ⟨9, 2⟩]) 2 5 rfl rfl
    (by decide) rfl (by decide) (by decide)

/-! ## Address list and assembly -/

theorem append_seq_all_ok (parse : String → Int × sockaddr_in) (texts : List String) :
    ∀ (nr : Nat) (list : List sockaddr_in),
      (∀ t ∈ texts, 0 ≤ (parse t).1) → nr + texts.length ≤ 255 →
      append_seq parse (texts.map (fun t => (true, t))) (nr, list)
        = (texts.map (fun t => (parse t).1), nr + texts.length,
            list ++ texts.map (fun t => (parse t).2)) := by
  induction texts with
  | nil => intro nr list _ _; simp [append_seq]
  | cons t rest ih =>
    intro nr list hok hroom
    have ht : 0 ≤ (parse t).1 := hok t (List.mem_cons_self _ _)
    have hrest : ∀ u ∈ rest, 0 ≤ (parse u).1 := fun u hu => hok u (List.mem_cons_of_mem _ hu)
    simp only [List.length_cons] at hroom
    have hne : nr ≠ U8_MAX := by unfold U8_MAX; omega
    have hmod : (nr + 1) % 256 = nr + 1 := Nat.mod_eq_of_lt (by omega)
    have hstep : ngnfs_map_append_addr parse true nr list t
        = ((parse t).1, nr + 1, list ++ [(parse t).2]) := by
      simp [ngnfs_map_append_addr, hne, not_lt.mpr ht, hmod]
    simp only [List.map_cons, append_seq, hstep]
    rw [ih (nr + 1) (list ++ [(parse t).2]) hrest (by omega)]
    simp [Nat.add_assoc, Nat.add_comm 1]

theorem addr_list_loop_spec (list : List sockaddr_in) :
    ∀ (nr : Nat) (written : List ngnfs_ipv4_addr),
      addr_list_loop list nr written
        = if list.length ≤ nr then
            Except.ok (nr - list.length, written ++ list.map addr_to_map)
          else Except.error (-EINVAL) := by
  induction list with
  | nil => intro nr written; simp [addr_list_loop]
  | cons a rest ih =>
    intro nr written
    by_cases h0 : nr = 0
    · simp [addr_list_loop, h0]
    · have e : (rest.length ≤ nr - 1) = (rest.length + 1 ≤ nr) := by
        apply propext; omega
      have e2 : nr - 1 - rest.length = nr - (rest.length + 1) := by omega
      simp [addr_list_loop, h0, ih, e, e2]

theorem addrs_to_maps_publishes (nfi : ngnfs_fs_info) (minf : ngnfs_map_info)
    (list : List sockaddr_in) (hinfo : nfi.map_info = some minf)
    (h1 : 1 ≤ list.length) (h255 : list.length ≤ 255) :
    ngnfs_map_addrs_to_maps true true nfi list list.length
      = Except.ok (0, { nfi with map_info := some ⟨some (maps_of (cpu_to_le64 list.length)
          (list.map addr_to_map)), minf.updates_woken + 1⟩ }) := by
  have hmod : list.length % 256 = list.length := Nat.mod_eq_of_lt (by omega)
  have hn0 : list.length ≠ 0 := by omega
  have hrt : le64_to_cpu (cpu_to_le64 list.length) = list.length :=
    le64_roundtrip _ (by omega)
  simp [ngnfs_map_addrs_to_maps, addr_list_to_maps, hmod, hn0, addr_list_loop_spec, ptr_lt_zero,
    update_maps, deref, copy_maps, hrt, hinfo, maps_of]

/-- C2 (as amended): for every sequence of k texts (1 <= k <= 255) that parse to
well-formed endpoints, appended in order to an empty list with every
allocation succeeding, then assembled and published by
ngnfs_map_addrs_to_maps(list, k), and for every block number b,
ngnfs_map_map_block(b) returns 0 and yields the IPv4 address and port of the
endpoint appended at position b mod k.  With the three hosts of scenario S1,
blocks 0, 1, 2, 3, 255 give hosts 1, 2, 3, 1, 1. -/
theorem assemble_publish_lookup (parse : String → Int × sockaddr_in)
    (texts : List String) (nfi : ngnfs_fs_info) (minf : ngnfs_map_info) (b : Nat)
    (hinfo : nfi.map_info = some minf)
    (hk1 : 1 ≤ texts.length) (hk : texts.length ≤ 255)
    (hparse : ∀ t ∈ texts, 0 ≤ (parse t).1 ∧ (parse t).2.wf) :
    (∃ nfi1 t out,
      ngnfs_map_addrs_to_maps true true nfi
          (append_seq parse (texts.map (fun t => (true, t))) (0, [])).2.2
          (append_seq parse (texts.map (fun t => (true, t))) (0, [])).2.1 = Except.ok (0, nfi1) ∧
      texts.get? (b % texts.length) = some t ∧
      ngnfs_map_map_block nfi1 b = Except.ok (0, some out) ∧
      out.s_addr = (parse t).2.s_addr ∧ out.sin_port = (parse t).2.sin_port ∧
      out.sin_family = AF_INET) ∧
    s1_lookup 0 = Except.ok (0, some (s1_host 1)) ∧
    s1_lookup 1 = Except.ok (0, some (s1_host 2)) ∧
    s1_lookup 2 = Except.ok (0, some (s1_host 3)) ∧
    s1_lookup 3 = Except.ok (0, some (s1_host 1)) ∧
    s1_lookup 255 = Except.ok (0, some (s1_host 1)) := by
  refine ⟨?_, rfl, rfl, rfl, rfl, rfl⟩
  have hbuilt := append_seq_all_ok parse texts 0 [] (fun t ht => (hparse t ht).1) (by omega)
  simp only [Nat.zero_add, List.nil_append] at hbuilt
  rw [hbuilt]
  simp only []
  have hlen : (texts.map (fun t => (parse t).2)).length = texts.length := List.length_map _ _
  have hpub := addrs_to_maps_publishes nfi minf (texts.map (fun t => (parse t).2)) hinfo
    (by omega) (by omega)
  rw [hlen] at hpub
  have hidx : b % texts.length < texts.length := Nat.mod_lt _ (by omega)
  have hrt : le64_to_cpu (cpu_to_le64 texts.length) = texts.length :=
    le64_roundtrip _ (by omega)
  obtain ⟨a, ha, hblk⟩ := map_block_of_cell
    { nfi with map_info := some ⟨some (maps_of (cpu_to_le64 texts.length)
      ((texts.map (fun t => (parse t).2)).map addr_to_map)), minf.updates_woken + 1⟩ }
    ⟨some (maps_of (cpu_to_le64 texts.length)
      ((texts.map (fun t => (parse t).2)).map addr_to_map)), minf.updates_woken + 1⟩
    (maps_of (cpu_to_le64 texts.length)
      ((texts.map (fun t => (parse t).2)).map addr_to_map))
    texts.length b rfl rfl hrt (by simp [maps_of]) hk1 hk
  have hwf : (parse (texts.get ⟨b % texts.length, hidx⟩)).2.wf :=
    (hparse _ (List.get_mem _ _ _)).2
  have ha2 : a = addr_to_map (parse (texts.get ⟨b % texts.length, hidx⟩)).2 := by
    simp [maps_of, List.getElem?_eq_getElem hidx] at ha
    exact ha.symm
  rw [ha2, map_to_addr_addr_to_map _ hwf] at hblk
  exact ⟨_, texts.get ⟨b % texts.length, hidx⟩, _, hpub, List.get?_eq_get hidx, hblk,
    rfl, rfl, rfl⟩

theorem s1_parse_ok : ∀ t ∈ s1_texts, 0 ≤ (s1_parse t).1 ∧ (s1_parse t).2.wf := by
  intro t ht
  simp only [s1_texts, List.mem_cons, List.mem_singleton, List.not_mem_nil, or_false] at ht
  rcases ht with h | h | h <;> subst h <;> decide

/-- C2 (as amended) at scenario S1 and block 255. -/
theorem assemble_publish_lookup_witness :
    (∃ nfi1 t out,
      ngnfs_map_addrs_to_maps true true (ngnfs_map_setup true INIT_NGNFS_FS_INFO).2
          (append_seq s1_parse (s1_texts.map (fun t => (true, t))) (0, [])).2.2
          (append_seq s1_parse (s1_texts.map (fun t => (true, t))) (0, [])).2.1
        = Except.ok (0, nfi1) ∧
      s1_texts.get? (255 % s1_texts.length) = some t ∧
      ngnfs_map_map_block nfi1 255 = Except.ok (0, some out) ∧
      out.s_addr = (s1_parse t).2.s_addr ∧ out.sin_port = (s1_parse t).2.sin_port ∧
      out.sin_family = AF_INET) ∧
    s1_lookup 0 = Except.ok (0, some (s1_host 1)) ∧
    s1_lookup 1 = Except.ok (0, some (s1_host 2)) ∧
    s1_lookup 2 = Except.ok (0, some (s1_host 3)) ∧
    s1_lookup 3 = Except.ok (0, some (s1_host 1)) ∧
    s1_lookup 255 = Except.ok (0, some (s1_host 1)) :=
  assemble_publish_lookup s1_parse s1_texts (ngnfs_map_setup true INIT_NGNFS_FS_INFO).2
    ⟨none, 0⟩ 255 rfl (by decide) (by decide) s1_parse_ok

/-- C2 as stated fails at scenario S1: block 255 is answered with host 1
(255 mod 3 = 0), not with host 3. -/
theorem s1_lookup_255_is_not_host_3 :
    s1_lookup 255 = Except.ok (0, some (s1_host 1)) ∧
    s1_lookup 255 ≠ Except.ok (0, some (s1_host 3)) := by
  refine ⟨rfl, ?_⟩
  intro h
  have h1 : s1_lookup 255 = Except.ok (0, some (s1_host 1)) := rfl
  rw [h1] at h
  injection h with h
  injection h with _ h
  injection h with h
  exact absurd h (by decide)

/-- C3 as stated fails: after ngnfs_map_setup with nothing published, and on a
published map whose count is 0, ngnfs_map_map_block for block 0 returns no
error code at all. -/
theorem map_block_unpublished_returns_no_error :
    (¬ ∃ e : Int, ngnfs_map_map_block (ngnfs_map_setup true INIT_NGNFS_FS_INFO).2 0
        = Except.ok (e, none)) ∧
    (¬ ∃ e : Int, ngnfs_map_map_block (nfi_with_map (maps_of 0 [])) 0
        = Except.ok (e, none)) := by
  constructor
  · rintro ⟨e, h⟩
    have h1 : ngnfs_map_map_block (ngnfs_map_setup true INIT_NGNFS_FS_INFO).2 0
        = Except.error Fault.null_deref := rfl
    rw [h1] at h
    cases h
  · rintro ⟨e, h⟩
    have h1 : ngnfs_map_map_block (nfi_with_map (maps_of 0 [])) 0
        = Except.error Fault.div_by_zero := rfl
    rw [h1] at h
    cases h

/-- C3 (as amended): ngnfs_map_map_block has no NOT_READY result.  Whenever it
returns, the return value is 0, an endpoint has been stored, and the store
holds a published map whose count is not 0. -/
theorem map_block_returns_only_zero (nfi : ngnfs_fs_info) (bnr : Nat)
    (ret : Int) (out : Option sockaddr_in)
    (h : ngnfs_map_map_block nfi bnr = Except.ok (ret, out)) :
    ret = 0 ∧ out.isSome = true ∧
    ∃ minf nm, nfi.map_info = some minf ∧ minf.maps_rcu = some nm ∧
      le64_to_cpu nm.devd_map.nr_addrs ≠ 0 := by
  unfold ngnfs_map_map_block at h
  cases hmi : nfi.map_info with
  | none => simp [hmi] at h
  | some minf =>
    cases hc : minf.maps_rcu with
    | none => simp [hmi, hc] at h
    | some nm =>
      by_cases hz : le64_to_cpu nm.devd_map.nr_addrs = 0
      · simp [hmi, hc, div_u64_rem, hz] at h
      · simp only [hmi, hc, div_u64_rem, hz, if_false] at h
        cases ha : addrs_at nm.devd_map
            (bnr % le64_to_cpu nm.devd_map.nr_addrs % 4294967296) with
        | error f => simp [ha] at h
        | ok a =>
          simp only [ha] at h
          injection h with h
          injection h with h1 h2
          exact ⟨h1.symm, by rw [← h2]; rfl, minf, nm, rfl, hc, hz⟩

/-- C3 (as amended) at the published map of two addresses and block 5. -/
theorem map_block_returns_only_zero_witness :
    (0 : Int) = 0 ∧ (some (map_to_addr ⟨9, 2⟩)).isSome = true ∧
    ∃ minf nm, (nfi_with_map (maps_of 2 [⟨7, 1⟩, ⟨9, 2⟩])).map_info = some minf ∧
      minf.maps_rcu = some nm ∧ le64_to_cpu nm.devd_map.nr_addrs ≠ 0 :=
  map_block_returns_only_zero (nfi_with_map (maps_of 2 [⟨7, 1⟩, ⟨9, 2⟩])) 5 0
    (some (map_to_addr ⟨9, 2⟩)) rfl

/-! ## Address list operations -/

theorem append_seq_append (parse : String → Int × sockaddr_in) (xs ys : List (Bool × String)) :
    ∀ st : Nat × List sockaddr_in,
      append_seq parse (xs ++ ys) st
        = ((append_seq parse xs st).1
              ++ (append_seq parse ys ((append_seq parse xs st).2.1, (append_seq parse xs st).2.2)).1,
            (append_seq parse ys ((append_seq parse xs st).2.1, (append_seq parse xs st).2.2)).2.1,
            (append_seq parse ys
              ((append_seq parse xs st).2.1, (append_seq parse xs st).2.2)).2.2) := by
  induction xs with
  | nil => intro st; simp [append_seq]
  | cons c rest ih => intro st; simp [append_seq, ih]

/-- C4: with the counter at 255 ngnfs_map_append_addr returns -EINVAL and leaves
the counter and the list as they were, whatever the list, the text, the
parser and the allocator do.  Hence 256 appends of texts the parser accepts,
starting from an empty list with every allocation succeeding, return the
parser's non-negative value 255 times and -EINVAL the 256th time, and the
counter and the list length end at 255. -/
theorem append_at_limit_fails (parse : String → Int × sockaddr_in) (malloc_ok : Bool)
    (list : List sockaddr_in) (str : String) (texts : List String)
    (hlen : texts.length = 256) (hok : ∀ t ∈ texts, 0 ≤ (parse t).1) :
    ngnfs_map_append_addr parse malloc_ok 255 list str = (-EINVAL, 255, list) ∧
    (append_seq parse (texts.map (fun t => (true, t))) (0, [])).1
      = (texts.take 255).map (fun t => (parse t).1) ++ [-EINVAL] ∧
    (∀ ret ∈ (append_seq parse (texts.map (fun t => (true, t))) (0, [])).1.take 255, 0 ≤ ret) ∧
    (append_seq parse (texts.map (fun t => (true, t))) (0, [])).1.get? 255 = some (-EINVAL) ∧
    (append_seq parse (texts.map (fun t => (true, t))) (0, [])).2.1 = 255 ∧
    (append_seq parse (texts.map (fun t => (true, t))) (0, [])).2.2
      = (texts.take 255).map (fun t => (parse t).2) ∧
    (append_seq parse (texts.map (fun t => (true, t))) (0, [])).2.2.length = 255 := by
  have hlimit : ∀ (m : Bool) (l : List sockaddr_in) (t : String),
      ngnfs_map_append_addr parse m 255 l t = (-EINVAL, 255, l) := by
    intro m l t; simp [ngnfs_map_append_addr, U8_MAX]
  have htake : (texts.take 255).length = 255 := by simp [hlen]
  have hsplit : texts = texts.take 255 ++ texts.drop 255 := (List.take_append_drop 255 texts).symm
  have hdrop : ∃ last, texts.drop 255 = [last] := by
    have hl : (texts.drop 255).length = 1 := by simp [hlen]
    match hd : texts.drop 255, hl with
    | [last], _ => exact ⟨last, rfl⟩
  obtain ⟨last, hlast⟩ := hdrop
  have hfirst := append_seq_all_ok parse (texts.take 255) 0 []
    (fun t ht => hok t (List.mem_of_mem_take ht)) (by omega)
  simp only [htake, Nat.zero_add, List.nil_append] at hfirst
  have hall : append_seq parse (texts.map (fun t => (true, t))) (0, [])
      = ((texts.take 255).map (fun t => (parse t).1) ++ [-EINVAL], 255,
          (texts.take 255).map (fun t => (parse t).2)) := by
    conv_lhs => rw [hsplit]
    rw [List.map_append, append_seq_append, hfirst, hlast]
    simp [append_seq, hlimit]
  have hl : ((texts.take 255).map (fun t => (parse t).1)).length = 255 := by
    rw [List.length_map]; exact htake
  refine ⟨hlimit malloc_ok list str, ?_, ?_, ?_, ?_, ?_, ?_⟩
  · rw [hall]
  · rw [hall]
    intro ret hret
    have hmem : ret ∈ (texts.take 255).map (fun t => (parse t).1) := by
      simp only [] at hret
      rw [List.take_append_of_le_length (by omega)] at hret
      exact List.mem_of_mem_take hret
    obtain ⟨t, ht, rfl⟩ := List.mem_map.mp hmem
    exact hok t (List.mem_of_mem_take ht)
  · rw [hall]
    simp only []
    rw [List.get?_eq_getElem?, List.getElem?_append_right (by omega), hl]
    rfl
  · rw [hall]
  · rw [hall]
  · rw [hall]; simp [hlen]

/-- C4 at 256 copies of the first host text of the scenarios. -/
theorem append_at_limit_fails_witness :
    ngnfs_map_append_addr s1_parse false 255 [s1_host 2] "10.0.0.3:5000"
      = (-EINVAL, 255, [s1_host 2]) ∧
    (append_seq s1_parse ((List.replicate 256 "10.0.0.1:5000").map (fun t => (true, t))) (0, [])).1
      = ((List.replicate 256 "10.0.0.1:5000").take 255).map (fun t => (s1_parse t).1) ++ [-EINVAL] ∧
    (∀ ret ∈ (append_seq s1_parse ((List.replicate 256 "10.0.0.1:5000").map (fun t => (true, t)))
        (0, [])).1.take 255, 0 ≤ ret) ∧
    (append_seq s1_parse ((List.replicate 256 "10.0.0.1:5000").map (fun t => (true, t)))
        (0, [])).1.get? 255 = some (-EINVAL) ∧
    (append_seq s1_parse ((List.replicate 256 "10.0.0.1:5000").map (fun t => (true, t)))
        (0, [])).2.1 = 255 ∧
    (append_seq s1_parse ((List.replicate 256 "10.0.0.1:5000").map (fun t => (true, t)))
        (0, [])).2.2
      = ((List.replicate 256 "10.0.0.1:5000").take 255).map (fun t => (s1_parse t).2) ∧
    (append_seq s1_parse ((List.replicate 256 "10.0.0.1:5000").map (fun t => (true, t)))
        (0, [])).2.2.length = 255 :=
  append_at_limit_fails s1_parse false [s1_host 2] "10.0.0.3:5000"
    (List.replicate 256 "10.0.0.1:5000") (List.length_replicate _ _)
    (fun t ht => by rw [List.eq_of_mem_replicate ht]; decide)

/-- C5: ngnfs_map_append_addr keeps 'the counter equals the number of entries,
entries in insertion order'.  A call that succeeds (return value >= 0) adds
exactly the parsed endpoint at the tail and raises the counter by one; a call
that fails (limit reached: -EINVAL, no memory: -ENOMEM, text rejected: the
parser's negative value) leaves the list and the counter as they were. -/
theorem append_preserves_invariant (parse : String → Int × sockaddr_in) (malloc_ok : Bool)
    (nr : Nat) (list : List sockaddr_in) (str : String)
    (hu8 : nr ≤ 255) (hinv : nr = list.length) :
    (0 ≤ (ngnfs_map_append_addr parse malloc_ok nr list str).1 →
      (ngnfs_map_append_addr parse malloc_ok nr list str).2.2 = list ++ [(parse str).2] ∧
      (ngnfs_map_append_addr parse malloc_ok nr list str).2.1 = nr + 1 ∧
      (ngnfs_map_append_addr parse malloc_ok nr list str).1 = (parse str).1) ∧
    ((ngnfs_map_append_addr parse malloc_ok nr list str).1 < 0 →
      (ngnfs_map_append_addr parse malloc_ok nr list str).2.2 = list ∧
      (ngnfs_map_append_addr parse malloc_ok nr list str).2.1 = nr) ∧
    (ngnfs_map_append_addr parse malloc_ok nr list str).2.1
      = (ngnfs_map_append_addr parse malloc_ok nr list str).2.2.length ∧
    (nr = 255 → (ngnfs_map_append_addr parse malloc_ok nr list str).1 = -EINVAL) ∧
    (nr ≠ 255 → malloc_ok = false →
      (ngnfs_map_append_addr parse malloc_ok nr list str).1 = -ENOMEM) ∧
    (nr ≠ 255 → malloc_ok = true →
      (ngnfs_map_append_addr parse malloc_ok nr list str).1 = (parse str).1) := by
  by_cases hmax : nr = 255
  · have hr : ngnfs_map_append_addr parse malloc_ok nr list str = (-EINVAL, nr, list) := by
      simp [ngnfs_map_append_addr, U8_MAX, hmax]
    rw [hr]
    refine ⟨fun h => absurd h (by simp [EINVAL]), fun _ => ⟨rfl, rfl⟩, hinv, fun _ => rfl,
      fun h => absurd hmax h, fun h => absurd hmax h⟩
  · cases malloc_ok with
    | false =>
      have hr : ngnfs_map_append_addr parse false nr list str = (-ENOMEM, nr, list) := by
        simp [ngnfs_map_append_addr, U8_MAX, hmax]
      rw [hr]
      refine ⟨fun h => absurd h (by simp [ENOMEM]), fun _ => ⟨rfl, rfl⟩, hinv, fun h => absurd h hmax,
        fun _ _ => rfl, fun _ h => (by cases h)⟩
    | true =>
      by_cases hneg : (parse str).1 < 0
      · have hr : ngnfs_map_append_addr parse true nr list str = ((parse str).1, nr, list) := by
          simp [ngnfs_map_append_addr, U8_MAX, hmax, hneg]
        rw [hr]
        refine ⟨fun h => absurd hneg (not_lt.mpr h), fun _ => ⟨rfl, rfl⟩, hinv,
          fun h => absurd h hmax, fun _ h => (by cases h), fun _ _ => rfl⟩
      · have hmod : (nr + 1) % 256 = nr + 1 := Nat.mod_eq_of_lt (by omega)
        have hr : ngnfs_map_append_addr parse true nr list str
            = ((parse str).1, nr + 1, list ++ [(parse str).2]) := by
          simp [ngnfs_map_append_addr, U8_MAX, hmax, hneg, hmod]
        rw [hr]
        refine ⟨fun _ => ⟨rfl, rfl, rfl⟩, fun h => absurd h hneg, ?_, fun h => absurd h hmax,
          fun _ h => (by cases h), fun _ _ => rfl⟩
        simp [hinv]

/-- C5 at a list of one entry and the text of host 2. -/
theorem append_preserves_invariant_witness :
    (0 ≤ (ngnfs_map_append_addr s1_parse true 1 [s1_host 1] "10.0.0.2:5000").1 →
      (ngnfs_map_append_addr s1_parse true 1 [s1_host 1] "10.0.0.2:5000").2.2
        = [s1_host 1] ++ [(s1_parse "10.0.0.2:5000").2] ∧
      (ngnfs_map_append_addr s1_parse true 1 [s1_host 1] "10.0.0.2:5000").2.1 = 1 + 1 ∧
      (ngnfs_map_append_addr s1_parse true 1 [s1_host 1] "10.0.0.2:5000").1
        = (s1_parse "10.0.0.2:5000").1) ∧
    ((ngnfs_map_append_addr s1_parse true 1 [s1_host 1] "10.0.0.2:5000").1 < 0 →
      (ngnfs_map_append_addr s1_parse true 1 [s1_host 1] "10.0.0.2:5000").2.2 = [s1_host 1] ∧
      (ngnfs_map_append_addr s1_parse true 1 [s1_host 1] "10.0.0.2:5000").2.1 = 1) ∧
    (ngnfs_map_append_addr s1_parse true 1 [s1_host 1] "10.0.0.2:5000").2.1
      = (ngnfs_map_append_addr s1_parse true 1 [s1_host 1] "10.0.0.2:5000").2.2.length ∧
    (1 = 255 → (ngnfs_map_append_addr s1_parse true 1 [s1_host 1] "10.0.0.2:5000").1 = -EINVAL) ∧
    (1 ≠ 255 → true = false →
      (ngnfs_map_append_addr s1_parse true 1 [s1_host 1] "10.0.0.2:5000").1 = -ENOMEM) ∧
    (1 ≠ 255 → true = true →
      (ngnfs_map_append_addr s1_parse true 1 [s1_host 1] "10.0.0.2:5000").1
        = (s1_parse "10.0.0.2:5000").1) :=
  append_preserves_invariant s1_parse true 1 [s1_host 1] "10.0.0.2:5000" (by decide) rfl

theorem free_addrs_loop_append (l : List sockaddr_in) :
    ∀ r : List sockaddr_in, free_addrs_loop l (l ++ r) = r := by
  induction l with
  | nil => intro r; rfl
  | cons a rest ih =>
    intro r
    simp only [List.cons_append, free_addrs_loop, List.erase_cons_head]
    exact ih r

/-- C6: ngnfs_map_free_addrs leaves the list empty for every input list, and
calling it on an empty list, in particular a second time, changes nothing. -/
theorem free_addrs_empties_and_is_idempotent (addr_list : List sockaddr_in) :
    ngnfs_map_free_addrs addr_list = [] ∧
    ngnfs_map_free_addrs [] = [] ∧
    ngnfs_map_free_addrs (ngnfs_map_free_addrs addr_list) = ngnfs_map_free_addrs addr_list := by
  have hempty : ∀ l : List sockaddr_in, ngnfs_map_free_addrs l = [] := by
    intro l
    have h := free_addrs_loop_append l []
    rw [List.append_nil] at h
    exact h
  refine ⟨hempty addr_list, rfl, ?_⟩
  rw [hempty addr_list]
  rfl

/-! ## Shutdown -/

theorem shutdown_seq_errno (errs : List Int) :
    ∀ nfi : ngnfs_fs_info,
      (shutdown_seq nfi errs).global_errno = last_nonzero nfi.global_errno errs := by
  induction errs with
  | nil => intro nfi; rfl
  | cons e rest ih =>
    intro nfi
    have hstep : shutdown_seq nfi (e :: rest) = shutdown_seq (ngnfs_shutdown nfi e) rest := rfl
    rw [hstep, ih]
    unfold last_nonzero
    rw [List.reverse_cons, List.find?_append]
    cases hf : rest.reverse.find? (fun e => e ≠ 0) with
    | some x => simp
    | none =>
      by_cases he : e = 0
      · simp [ngnfs_shutdown, he]
      · simp [ngnfs_shutdown, he]

/-- C7 as stated fails: after ngnfs_shutdown(nfi, -5) and then ngnfs_shutdown(nfi, -12)
from global_errno = 0 the recorded error is -12, not the first non-zero one. -/
theorem shutdown_later_error_overwrites :
    (shutdown_seq INIT_NGNFS_FS_INFO [-5, -12]).global_errno = -12 ∧
    first_nonzero [-5, -12] = -5 ∧
    (shutdown_seq INIT_NGNFS_FS_INFO [-5, -12]).global_errno ≠ first_nonzero [-5, -12] := by
  decide

/-- C7 (as amended): after the calls ngnfs_shutdown(nfi, e1), ngnfs_shutdown(nfi, e2), ...
global_errno holds the last non-zero ei (a non-zero error replaces the
recorded one, a zero leaves it), and its former value, 0 from a fresh fs
info, when every ei is zero; the shutdown flag is set once a call was made. -/
theorem shutdown_records_last_nonzero (nfi : ngnfs_fs_info) (errs : List Int) :
    (shutdown_seq nfi errs).global_errno = last_nonzero nfi.global_errno errs ∧
    (shutdown_seq INIT_NGNFS_FS_INFO errs).global_errno = last_nonzero 0 errs ∧
    ((∀ e ∈ errs, e = 0) → (shutdown_seq nfi errs).global_errno = nfi.global_errno) ∧
    (errs ≠ [] → ngnfs_should_shutdown (shutdown_seq nfi errs) = true) := by
  refine ⟨shutdown_seq_errno errs nfi, shutdown_seq_errno errs INIT_NGNFS_FS_INFO, ?_, ?_⟩
  · intro hz
    rw [shutdown_seq_errno]
    unfold last_nonzero
    have hnone : errs.reverse.find? (fun e => e ≠ 0) = none := by
      rw [List.find?_eq_none]
      intro x hx
      have := hz x (List.mem_reverse.mp hx)
      simp [this]
    rw [hnone]
    rfl
  · intro hne
    have hflag : ∀ (l : List Int) (n : ngnfs_fs_info), n.shutdown = true →
        (shutdown_seq n l).shutdown = true := by
      intro l
      induction l with
      | nil => intro n hn; exact hn
      | cons e rest ih => intro n _; exact ih (ngnfs_shutdown n e) rfl
    cases errs with
    | nil => exact absurd rfl hne
    | cons e rest => exact hflag rest (ngnfs_shutdown nfi e) rfl

/-- C7 (as amended) at the calls with -5, 0, -12 on a fresh fs info. -/
theorem shutdown_records_last_nonzero_witness :
    (shutdown_seq INIT_NGNFS_FS_INFO [-5, 0, -12]).global_errno
      = last_nonzero INIT_NGNFS_FS_INFO.global_errno [-5, 0, -12] ∧
    (shutdown_seq INIT_NGNFS_FS_INFO [-5, 0, -12]).global_errno = last_nonzero 0 [-5, 0, -12] ∧
    ((∀ e ∈ [(-5 : Int), 0, -12], e = 0) →
      (shutdown_seq INIT_NGNFS_FS_INFO [-5, 0, -12]).global_errno
        = INIT_NGNFS_FS_INFO.global_errno) ∧
    ([(-5 : Int), 0, -12] ≠ [] →
      ngnfs_should_shutdown (shutdown_seq INIT_NGNFS_FS_INFO [-5, 0, -12]) = true) :=
  shutdown_records_last_nonzero INIT_NGNFS_FS_INFO [-5, 0, -12]

/-! ## Messages -/

theorem copy_maps_exact (M : ngnfs_maps) (n : Nat)
    (hn : le64_to_cpu M.devd_map.nr_addrs = n) (hlen : M.devd_map.addrs.length = n)
    (h255 : n ≤ 255) : copy_maps M = Except.ok M := by
  have hmod : n % 256 = n := Nat.mod_eq_of_lt (by omega)
  cases M with
  | mk d =>
    cases d with
    | mk nr addrs =>
      simp only [] at hn hlen
      subst hlen
      simp [copy_maps, hn, hmod]

theorem maps_to_msg_of_cell (L : Layout) (kmalloc : Nat → Option Int) (fuel : Nat)
    (nfi : ngnfs_fs_info) (minf : ngnfs_map_info) (M M1 : ngnfs_maps) (g : Int)
    (hinfo : nfi.map_info = some minf) (hcell : minf.maps_rcu = some M)
    (hcopy : copy_maps M = Except.ok M1) (hk : kmalloc 0 = some g) :
    ngnfs_maps_to_msg L kmalloc (fuel + 2) nfi
      = some (Except.ok (Ptr.obj { err := g, devd_map := M1.devd_map })) := by
  have hsz : (0 : Nat) ≠ get_maps_result_size L M := by
    have := L.addrs_off_pos
    unfold get_maps_result_size
    simp only []
    omega
  simp [ngnfs_maps_to_msg, maps_to_msg_loop, hinfo, hcell, hsz, hk, hcopy]

theorem maps_to_msg_no_memory (L : Layout) (kmalloc : Nat → Option Int) (fuel : Nat)
    (nfi : ngnfs_fs_info) (minf : ngnfs_map_info) (M : ngnfs_maps)
    (hinfo : nfi.map_info = some minf) (hcell : minf.maps_rcu = some M)
    (hk : kmalloc 0 = none) :
    ngnfs_maps_to_msg L kmalloc (fuel + 1) nfi = some (Except.ok (ERR_PTR (-ENOMEM))) := by
  have hsz : (0 : Nat) ≠ get_maps_result_size L M := by
    have := L.addrs_off_pos
    unfold get_maps_result_size
    simp only []
    omega
  simp [ngnfs_maps_to_msg, maps_to_msg_loop, hinfo, hcell, hsz, hk]

theorem update_maps_publishes (nfi : ngnfs_fs_info) (minf : ngnfs_map_info)
    (M M1 : ngnfs_maps) (hinfo : nfi.map_info = some minf)
    (hcopy : copy_maps M = Except.ok M1) :
    update_maps true nfi (Ptr.obj M)
      = Except.ok (0, { nfi with map_info := some ⟨some M1, minf.updates_woken + 1⟩ }) := by
  simp [update_maps, deref, hcopy, hinfo]

/-- Round trip when the err field left in the reply buffer is not negative: for
a server map M of n addresses, 1 <= n <= 255, and a buffer whose err field
holds g >= 0, ngnfs_maps_to_msg returns a message carrying M, and
map_get_maps_result on a client with a set up store returns 0 and publishes
exactly M, so client and server lookups agree on every block number. -/
theorem roundtrip_with_nonnegative_err (L : Layout) (kmalloc : Nat → Option Int) (fuel : Nat)
    (msg_err : Int → Int) (server client : ngnfs_fs_info) (sminf cminf : ngnfs_map_info)
    (M : ngnfs_maps) (n : Nat) (g : Int)
    (hs : server.map_info = some sminf) (hsc : sminf.maps_rcu = some M)
    (hn : le64_to_cpu M.devd_map.nr_addrs = n) (hlen : M.devd_map.addrs.length = n)
    (h1 : 1 ≤ n) (h255 : n ≤ 255)
    (hc : client.map_info = some cminf) (hk : kmalloc 0 = some g) (hg : 0 ≤ g) :
    ∃ msg client1 cminf1,
      ngnfs_maps_to_msg L kmalloc (fuel + 2) server = some (Except.ok (Ptr.obj msg)) ∧
      msg.err = g ∧ msg.devd_map = M.devd_map ∧
      (∀ mdesc : ngnfs_msg_desc ngnfs_msg_get_maps_result, mdesc.ctl_buf = msg →
        map_get_maps_result msg_err true client mdesc = Except.ok (0, client1)) ∧
      client1.map_info = some cminf1 ∧ cminf1.maps_rcu = some M ∧
      ∀ bnr, ngnfs_map_map_block client1 bnr = ngnfs_map_map_block server bnr := by
  have hcopy := copy_maps_exact M n hn hlen h255
  have hmsg := maps_to_msg_of_cell L kmalloc fuel server sminf M M g hs hsc hcopy hk
  have hM : ({ devd_map := M.devd_map } : ngnfs_maps) = M := by cases M; rfl
  have hpub := update_maps_publishes client cminf M M hc hcopy
  refine ⟨{ err := g, devd_map := M.devd_map },
    { client with map_info := some ⟨some M, cminf.updates_woken + 1⟩ },
    ⟨some M, cminf.updates_woken + 1⟩, hmsg, rfl, rfl, ?_, rfl, rfl, ?_⟩
  · intro mdesc hbuf
    simp only [map_get_maps_result, hbuf, not_lt.mpr hg, if_false, msg_to_maps, hM]
    exact hpub
  · intro bnr
    obtain ⟨a, _, hcl⟩ := map_block_of_cell
      { client with map_info := some ⟨some M, cminf.updates_woken + 1⟩ }
      ⟨some M, cminf.updates_woken + 1⟩ M n bnr rfl rfl hn hlen h1 h255
    obtain ⟨b, _, hsv⟩ := map_block_of_cell server sminf M n bnr hs hsc hn hlen h1 h255
    simp_all

/-- Round trip lost when the err field left in the reply buffer is negative: for
every server map M of n <= 255 addresses and every g < 0, the message
ngnfs_maps_to_msg returns carries err = g, and map_get_maps_result on any
client returns ngnfs_msg_err(g) and leaves the client as it was, so nothing
is published. -/
theorem roundtrip_lost_with_negative_err (L : Layout) (kmalloc : Nat → Option Int) (fuel : Nat)
    (msg_err : Int → Int) (kmalloc_ok : Bool) (server client : ngnfs_fs_info)
    (sminf : ngnfs_map_info) (M : ngnfs_maps) (n : Nat) (g : Int)
    (hs : server.map_info = some sminf) (hsc : sminf.maps_rcu = some M)
    (hn : le64_to_cpu M.devd_map.nr_addrs = n) (hlen : M.devd_map.addrs.length = n)
    (h255 : n ≤ 255) (hk : kmalloc 0 = some g) (hg : g < 0) :
    ∃ msg,
      ngnfs_maps_to_msg L kmalloc (fuel + 2) server = some (Except.ok (Ptr.obj msg)) ∧
      msg.err = g ∧ msg.devd_map = M.devd_map ∧
      ∀ mdesc : ngnfs_msg_desc ngnfs_msg_get_maps_result, mdesc.ctl_buf = msg →
        map_get_maps_result msg_err kmalloc_ok client mdesc = Except.ok (msg_err g, client) := by
  have hcopy := copy_maps_exact M n hn hlen h255
  have hmsg := maps_to_msg_of_cell L kmalloc fuel server sminf M M g hs hsc hcopy hk
  refine ⟨{ err := g, devd_map := M.devd_map }, hmsg, rfl, rfl, ?_⟩
  intro mdesc hbuf
  simp [map_get_maps_result, hbuf, hg]

/-- C8 fails on the code.  In scenario S2 the server of S1 sizes its reply for
the three endpoints (12 + 3 * 6 bytes) and copies the map into it, but never
writes the err field; with a kmalloc buffer that held -5 there, the reply
carries err = -5 with the three endpoints, the client handler
map_get_maps_result returns -5 and publishes nothing, the client store stays
empty, and the client lookup of block 5 reads through the NULL cell instead
of giving host 3.  With a buffer that held 0 the same run gives host 3. -/
theorem s2_roundtrip_lost_with_err_garbage :
    get_maps_result_size wire_layout
        (maps_of 3 [addr_to_map (s1_host 1), addr_to_map (s1_host 2), addr_to_map (s1_host 3)])
      = 12 + 3 * 6 ∧
    s1_published = Except.ok (0, nfi_with_map
        (maps_of 3 [addr_to_map (s1_host 1), addr_to_map (s1_host 2), addr_to_map (s1_host 3)])) ∧
    s2_reply (-5) = some (Except.ok (0,
        ⟨msg_type.NGNFS_MSG_GET_MAPS_RESULT, s2_request.addr,
          ⟨-5, ⟨3, [addr_to_map (s1_host 1), addr_to_map (s1_host 2), addr_to_map (s1_host 3)]⟩⟩,
          12 + 3 * 6, none, 0⟩)) ∧
    s2_client (-5) = some (Except.ok (-5, (ngnfs_map_setup true INIT_NGNFS_FS_INFO).2)) ∧
    (ngnfs_map_setup true INIT_NGNFS_FS_INFO).2.map_info = some ⟨none, 0⟩ ∧
    s2_lookup_with (-5) 5 = some (Except.error Fault.null_deref) ∧
    s2_lookup_with 0 5 = some (Except.ok (0, some (s1_host 3))) :=
  ⟨rfl, rfl, rfl, rfl, rfl, rfl, rfl⟩

/-! ## The GET_MAPS handler -/

theorem map_get_maps_sends (L : Layout) (be : Bool) (kmalloc : Nat → Option Int)
    (send : ngnfs_msg_desc ngnfs_msg_get_maps_result → Int) (fuel : Nat)
    (nfi : ngnfs_fs_info) (minf : ngnfs_map_info) (M M1 : ngnfs_maps) (g : Int)
    (mdesc : ngnfs_msg_desc ngnfs_msg_get_maps)
    (hinfo : nfi.map_info = some minf) (hcell : minf.maps_rcu = some M)
    (hcopy : copy_maps M = Except.ok M1) (hk : kmalloc 0 = some g) :
    map_get_maps L be kmalloc send (fuel + 2) nfi mdesc
      = some (Except.ok
          (send ⟨msg_type.NGNFS_MSG_GET_MAPS_RESULT, mdesc.addr, ⟨g, M1.devd_map⟩,
              L.addrs_off + raw_le64 be M1.devd_map.nr_addrs % 256 * L.addr_size, none, 0⟩,
            ⟨msg_type.NGNFS_MSG_GET_MAPS_RESULT, mdesc.addr, ⟨g, M1.devd_map⟩,
              L.addrs_off + raw_le64 be M1.devd_map.nr_addrs % 256 * L.addr_size, none, 0⟩)) := by
  have hmsg := maps_to_msg_of_cell L kmalloc fuel nfi minf M M1 g hinfo hcell hcopy hk
  simp [map_get_maps, hmsg, ptr_lt_zero, deref, msg_size]

theorem map_get_maps_no_memory (L : Layout) (be : Bool) (kmalloc : Nat → Option Int)
    (send : ngnfs_msg_desc ngnfs_msg_get_maps_result → Int) (fuel : Nat)
    (nfi : ngnfs_fs_info) (minf : ngnfs_map_info) (M : ngnfs_maps)
    (mdesc : ngnfs_msg_desc ngnfs_msg_get_maps)
    (hinfo : nfi.map_info = some minf) (hcell : minf.maps_rcu = some M)
    (hk : kmalloc 0 = none) :
    map_get_maps L be kmalloc send (fuel + 1) nfi mdesc
      = some (Except.error Fault.bad_pointer) := by
  have hmsg := maps_to_msg_no_memory L kmalloc fuel nfi minf M hinfo hcell hk
  simp [map_get_maps, hmsg, ptr_lt_zero, ERR_PTR, deref]

/-- On a big-endian host msg_size and get_maps_result_size disagree on a map
whose count is 1: msg_size reads the little-endian count without
le64_to_cpu and finds 0 in its low byte. -/
theorem msg_size_skips_le64_to_cpu :
    get_maps_result_size wire_layout (maps_of (cpu_to_le64 1) [⟨7, 1⟩]) = 18 ∧
    msg_size wire_layout true ⟨0, ⟨cpu_to_le64 1, [⟨7, 1⟩]⟩⟩ = 12 ∧
    msg_size wire_layout false ⟨0, ⟨cpu_to_le64 1, [⟨7, 1⟩]⟩⟩ = 18 := by
  decide

/-- C9 fails on the code: with a published map of one address and a kmalloc
buffer whose err field holds -5, map_get_maps sends that buffer as it is.
The descriptor goes to the requester with the snapshot and the stated
ctl_size, but its err field is -5, not 0: ngnfs_maps_to_msg never writes err. -/
theorem get_maps_reply_err_is_never_written :
    map_get_maps wire_layout false (fun _ => some (-5)) (fun _ => 0) 2
        (nfi_with_map (maps_of 1 [⟨7, 1⟩])) s2_request
      = some (Except.ok (0,
          ⟨msg_type.NGNFS_MSG_GET_MAPS_RESULT, s2_request.addr, ⟨-5, ⟨1, [⟨7, 1⟩]⟩⟩,
            12 + 1 * 6, none, 0⟩)) ∧
    ((⟨-5, ⟨1, [⟨7, 1⟩]⟩⟩ : ngnfs_msg_get_maps_result).err ≠ 0) :=
  ⟨rfl, by decide⟩

/-- C10 fails on the code: with a published map and kmalloc returning NULL,
ngnfs_maps_to_msg returns ERR_PTR(-ENOMEM), the pointer test `resp < 0` of
map_get_maps does not hold, and msg_size reads through the error pointer:
the handler traps and no GET_MAPS_RESULT is sent. -/
theorem get_maps_no_memory_sends_no_reply :
    ngnfs_maps_to_msg wire_layout (fun _ => none) 2 (nfi_with_map (maps_of 1 [⟨7, 1⟩]))
      = some (Except.ok (ERR_PTR (-ENOMEM))) ∧
    map_get_maps wire_layout false (fun _ => none) (fun _ => 0) 2
        (nfi_with_map (maps_of 1 [⟨7, 1⟩])) s2_request
      = some (Except.error Fault.bad_pointer) :=
  ⟨rfl, rfl⟩

/-! ## The GET_MAPS_RESULT handler -/

theorem update_maps_published_shape (kmalloc_ok : Bool) (nfi nfi1 : ngnfs_fs_info)
    (p : Ptr ngnfs_maps) (h : update_maps kmalloc_ok nfi p = Except.ok (0, nfi1)) :
    ∃ minf m, nfi1.map_info = some minf ∧ minf.maps_rcu = some m ∧
      m.devd_map.addrs.length = le64_to_cpu m.devd_map.nr_addrs % 256 ∧
      m.devd_map.addrs.length ≤ 255 := by
  unfold update_maps at h
  cases hp : deref p with
  | error f => simp [hp] at h
  | ok src =>
    cases kmalloc_ok with
    | false =>
      simp only [hp, if_true] at h
      injection h with h
      injection h with h1 _
      exact absurd h1 (by decide)
    | true =>
      simp only [hp] at h
      by_cases hfit : src.devd_map.addrs.length < le64_to_cpu src.devd_map.nr_addrs % 256
      · simp [copy_maps, hfit] at h
      · cases hmi : nfi.map_info with
        | none => simp [copy_maps, hfit, hmi] at h
        | some minf =>
          simp only [copy_maps, hfit, hmi, if_false] at h
          have hlen : (src.devd_map.addrs.take (le64_to_cpu src.devd_map.nr_addrs % 256)).length
              = le64_to_cpu src.devd_map.nr_addrs % 256 := by
            rw [List.length_take]; omega
          have hb : le64_to_cpu src.devd_map.nr_addrs % 256 ≤ 255 := by omega
          injection h with h
          injection h with _ h2
          subst h2
          exact ⟨_, _, rfl, rfl, hlen, by rw [hlen]; exact hb⟩

/-- C13 fails on the code: a reply with err = 0 and nr_addrs = 257 that carries
one endpoint is published with the count field 257 and one copied entry,
because copy_maps cuts the count to a u8 for the length and copies the 64-bit
field as it is.  The lookup of block 1 then reads past the array. -/
theorem published_count_exceeds_entries :
    map_get_maps_result (fun e => e) true fresh_store (result_msg 0 257 [⟨7, 1⟩] 18)
      = Except.ok (0, { fresh_store with map_info := some ⟨some (maps_of 257 [⟨7, 1⟩]), 1⟩ }) ∧
    le64_to_cpu (maps_of 257 [⟨7, 1⟩]).devd_map.nr_addrs
      ≠ (maps_of 257 [⟨7, 1⟩]).devd_map.addrs.length ∧
    ngnfs_map_map_block { fresh_store with map_info := some ⟨some (maps_of 257 [⟨7, 1⟩]), 1⟩ } 1
      = Except.error Fault.out_of_bounds :=
  ⟨rfl, by decide, rfl⟩

/-! ## Waiting for the first map -/

/-- C14 fails on the code: the condition of the wait in ngnfs_maps_request is
`minf->maps_rcu != NULL` alone.  On a store with nothing published, after
ngnfs_shutdown(nfi, -5), ngnfs_should_shutdown is true and the condition is
false, so a client that sent its request and sleeps there stays asleep. -/
theorem maps_request_wait_ignores_shutdown :
    ngnfs_should_shutdown (ngnfs_shutdown fresh_store (-5)) = true ∧
    maps_request_wait_cond (ngnfs_shutdown fresh_store (-5)) = Except.ok false ∧
    ngnfs_maps_request (fun e => e) (fun _ => 0) [other_thread.shutdown (-5)] fresh_store
        (s1_host 1)
      = Except.ok (none, ngnfs_shutdown fresh_store (-5)) :=
  ⟨rfl, rfl, rfl⟩

/-- The condition of the wait in ngnfs_maps_request holds exactly when the cell
is non-empty, whatever the shutdown flag. -/
theorem maps_request_wait_cond_iff (nfi : ngnfs_fs_info) (minf : ngnfs_map_info)
    (hinfo : nfi.map_info = some minf) :
    maps_request_wait_cond nfi = Except.ok true ↔ ∃ m, minf.maps_rcu = some m := by
  unfold maps_request_wait_cond
  rw [hinfo]
  cases hc : minf.maps_rcu with
  | none => simp [hc]
  | some m => simp [hc]

/-! ## Server-side assembly -/

theorem addrs_to_maps_count_mismatch (kmalloc_ok1 kmalloc_ok2 : Bool) (nfi : ngnfs_fs_info)
    (list : List sockaddr_in) (nr : Nat) (h0 : nr % 256 ≠ 0) (hne : nr % 256 ≠ list.length) :
    ngnfs_map_addrs_to_maps kmalloc_ok1 kmalloc_ok2 nfi list nr
      = Except.error Fault.bad_pointer := by
  have herr : ∃ e, addr_list_to_maps kmalloc_ok1 list (nr % 256) = Ptr.err e := by
    unfold addr_list_to_maps
    simp only [Nat.mod_mod, h0, if_false]
    cases kmalloc_ok1 with
    | false => exact ⟨_, rfl⟩
    | true =>
      simp only [addr_list_loop_spec]
      by_cases hle : list.length ≤ nr % 256
      · have hleft : nr % 256 - list.length ≠ 0 := by omega
        simp [hle, hleft, ERR_PTR]
      · simp [hle, ERR_PTR]
  obtain ⟨e, he⟩ := herr
  simp [ngnfs_map_addrs_to_maps, h0, he, ptr_lt_zero, update_maps, deref]

/-- C15 fails on the code: with two entries in the list and nr = 1, or one entry
and nr = 2, addr_list_to_maps returns ERR_PTR(-EINVAL), the pointer test
`maps < 0` of ngnfs_map_addrs_to_maps does not hold, and update_maps reads
through the error pointer: ngnfs_map_addrs_to_maps and mapd_setup trap
instead of returning -EINVAL.  With nr = 0 the call does return -EINVAL and
publishes nothing. -/
theorem addrs_to_maps_mismatch_traps :
    addr_list_to_maps true [s1_host 1, s1_host 2] 1 = ERR_PTR (-EINVAL) ∧
    ngnfs_map_addrs_to_maps true true fresh_store [s1_host 1, s1_host 2] 1
      = Except.error Fault.bad_pointer ∧
    ngnfs_map_addrs_to_maps true true fresh_store [s1_host 1] 2
      = Except.error Fault.bad_pointer ∧
    mapd_setup true true 0 fresh_store [s1_host 1, s1_host 2] 1
      = Except.error Fault.bad_pointer ∧
    ngnfs_map_addrs_to_maps true true fresh_store [s1_host 1] 0
      = Except.ok (-EINVAL, fresh_store) :=
  ⟨rfl, rfl, rfl, rfl, rfl⟩

/-! ## The mount_unmount test -/

theorem unmount_keeps_errno (nfi : ngnfs_fs_info) :
    (ngnfs_unmount nfi).global_errno = nfi.global_errno := by
  unfold ngnfs_unmount ngnfs_map_destroy ngnfs_shutdown
  cases nfi.map_info <;> simp

theorem report_status (ret : Int) (nfi : ngnfs_fs_info) :
    (mount_unmount_report ret nfi).1 = (if ret ≠ 0 then ret else nfi.global_errno) ∧
    (mount_unmount_report ret nfi).2.global_errno = (mount_unmount_report ret nfi).1 := by
  unfold mount_unmount_report
  by_cases hneg : ret < 0
  · have hne : ret ≠ 0 := by omega
    simp [hneg, hne, ngnfs_shutdown]
  · by_cases hz : ret = 0
    · subst hz
      simp only [lt_irrefl, if_false, ne_eq, not_true_eq_false, unmount_keeps_errno]
      refine ⟨trivial, ?_⟩
      by_cases he : nfi.global_errno = 0
      · simp [ngnfs_shutdown, he, unmount_keeps_errno]
      · simp [ngnfs_shutdown, he]
    · simp [hneg, hz, ngnfs_shutdown]

/-- C16 as stated fails.  A reply is delivered and another thread latches -5
while the client setup sleeps, then ngnfs_map_request_maps fails with -12:
ngnfs_mount returns -12 with global_errno = -5, the test reports -12, and the
final ngnfs_shutdown(nfi, -12) replaces the latched -5 by -12.  When
ngnfs_block_setup fails with -12 and nothing was latched, the final call
turns global_errno from 0 into -12. -/
theorem final_shutdown_overwrites_latched_errno :
    ngnfs_mount (mount_env_of
        [other_thread.deliver (result_msg 0 1 [⟨7, 1⟩] 18) true, other_thread.shutdown (-5)]
        0 (-12)) INIT_NGNFS_FS_INFO
      = Except.ok (some (-12), ⟨none, -5, true⟩) ∧
    mount_unmount_thread (mount_env_of
        [other_thread.deliver (result_msg 0 1 [⟨7, 1⟩] 18) true, other_thread.shutdown (-5)]
        0 (-12))
      = Except.ok (some (-12, ⟨none, -12, true⟩)) ∧
    ngnfs_mount (mount_env_of [] (-12) 0) INIT_NGNFS_FS_INFO
      = Except.ok (some (-12), ⟨none, 0, true⟩) ∧
    mount_unmount_thread (mount_env_of [] (-12) 0)
      = Except.ok (some (-12, ⟨none, -12, true⟩)) :=
  ⟨rfl, rfl, rfl, rfl⟩

/-- C16 (as amended): whenever ngnfs_mount returns `ret`, 0 or negative, leaving
global_errno = e on the fs info, the mount_unmount test reports ret when it
is negative and e otherwise; the report is 0 exactly when ret = 0 and e = 0;
and after the final ngnfs_shutdown(nfi, status) global_errno equals the
reported status, which is the latched e when mount succeeded and the mount
error, stored over e, when mount failed. -/
theorem mount_unmount_status (env : mount_env) (ret : Int) (nfi : ngnfs_fs_info)
    (hmount : ngnfs_mount env INIT_NGNFS_FS_INFO = Except.ok (some ret, nfi))
    (hret : ret ≤ 0) :
    ∃ final,
      mount_unmount_thread env
        = Except.ok (some ((if ret < 0 then ret else nfi.global_errno), final)) ∧
      ((if ret < 0 then ret else nfi.global_errno) = 0 ↔ ret = 0 ∧ nfi.global_errno = 0) ∧
      final.global_errno = (if ret < 0 then ret else nfi.global_errno) ∧
      (ret = 0 → final.global_errno = nfi.global_errno) ∧
      (ret < 0 → final.global_errno = ret) := by
  obtain ⟨hstatus, hfinal⟩ := report_status ret nfi
  have hsame : (if ret ≠ 0 then ret else nfi.global_errno)
      = (if ret < 0 then ret else nfi.global_errno) := by
    by_cases hneg : ret < 0
    · have hne : ret ≠ 0 := by omega
      simp [hneg, hne]
    · have hz : ret = 0 := by omega
      simp [hz]
  rw [hsame] at hstatus
  refine ⟨(mount_unmount_report ret nfi).2, ?_, ?_, ?_, ?_, ?_⟩
  · simp only [mount_unmount_thread, hmount]
    rw [← hstatus]
  · by_cases hneg : ret < 0
    · have hne : ret ≠ 0 := by omega
      simp [hneg, hne]
    · have hz : ret = 0 := by omega
      simp [hz]
  · rw [hfinal, hstatus]
  · intro hz
    rw [hfinal, hstatus]
    simp [hz]
  · intro hneg
    rw [hfinal, hstatus]
    simp [hneg]

/-- C16 (as amended) at a mount that succeeds while another thread latched -5:
the test reports -5 and the final ngnfs_shutdown leaves -5 in place. -/
theorem mount_unmount_status_witness :
    ∃ final,
      mount_unmount_thread (mount_env_of
          [other_thread.deliver (result_msg 0 1 [⟨7, 1⟩] 18) true, other_thread.shutdown (-5)]
          0 0)
        = Except.ok (some ((if (0 : Int) < 0 then 0
            else (⟨some ⟨some (maps_of 1 [⟨7, 1⟩]), 1⟩, -5, true⟩ : ngnfs_fs_info).global_errno),
            final)) ∧
      ((if (0 : Int) < 0 then 0
          else (⟨some ⟨some (maps_of 1 [⟨7, 1⟩]), 1⟩, -5, true⟩ : ngnfs_fs_info).global_errno)
          = 0 ↔ (0 : Int) = 0 ∧
        (⟨some ⟨some (maps_of 1 [⟨7, 1⟩]), 1⟩, -5, true⟩ : ngnfs_fs_info).global_errno = 0) ∧
      final.global_errno = (if (0 : Int) < 0 then 0
        else (⟨some ⟨some (maps_of 1 [⟨7, 1⟩]), 1⟩, -5, true⟩ : ngnfs_fs_info).global_errno) ∧
      ((0 : Int) = 0 → final.global_errno
        = (⟨some ⟨some (maps_of 1 [⟨7, 1⟩]), 1⟩, -5, true⟩ : ngnfs_fs_info).global_errno) ∧
      ((0 : Int) < 0 → final.global_errno = 0) :=
  mount_unmount_status (mount_env_of
      [other_thread.deliver (result_msg 0 1 [⟨7, 1⟩] 18) true, other_thread.shutdown (-5)] 0 0)
    0 ⟨some ⟨some (maps_of 1 [⟨7, 1⟩]), 1⟩, -5, true⟩ rfl (by decide)

end Ngnfs
